import Mathlib

/-!
Shallow embedding of the Tool Gateway servers of the repository
(`src/servers/simple_mcp_server.js` and `src/servers/playwright_mcp_server.js`)
and proofs about the spec's claims on them.

The JSON objects the servers serialize with `JSON.stringify` are modelled by
`JVal`; one SSE `data:` write is one `SSEFrame`; each HTTP handler is a pure
Lean function of its inputs (current time, request-body parse outcome, and,
for the full server, an oracle `McpEnv` recording the outcomes of the awaited
external calls: the Playwright connection factory, the MCP SDK transport
connect, and the `_toolHandlers` introspection).  The full server's module
state (`connectedClients`, a JS `Map`) is an insertion-ordered association
list threaded through the handlers.
-/

namespace LQRadar

/-- JSON values as built by the servers' object literals. -/
inductive JVal where
  | s (v : String)
  | n (v : Nat)
  | b (v : Bool)
  | jnull
  | arr (elems : List JVal)
  | obj (fields : List (String × JVal))

/-- Top-level keys of a JSON object, in serialization order. -/
def JVal.keys : JVal → List String
  | .obj fs => fs.map Prod.fst
  | _ => []

/-- Look up a top-level field of a JSON object. -/
def JVal.lookup (j : JVal) (k : String) : Option JVal :=
  match j with
  | .obj fs => fs.lookup k
  | _ => none

/-- One property of a tool's `inputSchema.properties` object. -/
structure PropSpec where
  type : String
  description : Option String := none

/-- A tool's `inputSchema` (always `type: "object"` in the source). -/
structure InputSchema where
  properties : List (String × PropSpec)
  required : Option (List String) := none

/-- A tool descriptor, as declared in `PLAYWRIGHT_TOOLS` of
`simple_mcp_server.js`. -/
structure ToolDescriptor where
  name : String
  description : String
  inputSchema : InputSchema

def PropSpec.toJVal (p : PropSpec) : JVal :=
  .obj ([("type", .s p.type)] ++
    (match p.description with
     | some d => [("description", .s d)]
     | none => []))

def InputSchema.toJVal (sc : InputSchema) : JVal :=
  .obj ([("type", .s "object"),
         ("properties", .obj (sc.properties.map (fun q => (q.1, q.2.toJVal))))] ++
    (match sc.required with
     | some r => [("required", .arr (r.map JVal.s))]
     | none => []))

def ToolDescriptor.toJVal (t : ToolDescriptor) : JVal :=
  .obj [("name", .s t.name),
        ("description", .s t.description),
        ("inputSchema", t.inputSchema.toJVal)]

/-- The static tool catalog of `simple_mcp_server.js` (lines 16-57),
declared once at startup as a `const` and never mutated. -/
def PLAYWRIGHT_TOOLS : List ToolDescriptor :=
  [ { name := "browser_navigate",
      description := "Navigate to a URL in the browser",
      inputSchema :=
        { properties := [("url", { type := "string", description := some "URL to navigate to" })],
          required := some ["url"] } },
    { name := "page_screenshot",
      description := "Take a screenshot of the current page",
      inputSchema :=
        { properties := [("fullPage", { type := "boolean", description := some "Take full page screenshot" })] } },
    { name := "element_click",
      description := "Click on an element",
      inputSchema :=
        { properties := [("selector", { type := "string", description := some "CSS selector of element to click" })],
          required := some ["selector"] } },
    { name := "page_content",
      description := "Get the text content of the page",
      inputSchema := { properties := [] } } ]

/-- The `error` member built by `sendMCPError` in
`playwright_mcp_server.js` (lines 84-95). -/
structure MCPErrorObj where
  code : Int
  message : String
  data : Option JVal

/-- One SSE frame, i.e. one `res.write('data: ' + JSON.stringify(message))`.
Each `Option` field is present exactly when the JS object literal carries the
key; `id` is `some none` when the literal carries `id: null`. -/
structure SSEFrame where
  jsonrpc : String := "2.0"
  id : Option (Option String) := none
  method : Option String := none
  params : Option JVal := none
  result : Option JVal := none
  error : Option MCPErrorObj := none

/-- `sendMCPNotification(res, method, params)` of
`playwright_mcp_server.js` (lines 66-73): writes `{jsonrpc, method, params}`.
The inline notification literals of `simple_mcp_server.js` have the same
shape and reuse this constructor. -/
def sendMCPNotification (method : String) (params : JVal) : SSEFrame :=
  { jsonrpc := "2.0", method := some method, params := some params }

/-- `sendMCPResponse(res, id, result)` of `playwright_mcp_server.js`
(lines 75-82): writes `{jsonrpc, id, result}`. -/
def sendMCPResponse (id : Option String) (result : JVal) : SSEFrame :=
  { jsonrpc := "2.0", id := some id, result := some result }

/-- `sendMCPError(res, id, error)` of `playwright_mcp_server.js`
(lines 84-95): writes `{jsonrpc, id, error: {code: -32603, message, data}}`,
defaulting the message to "Internal error" and the data to `null`. -/
def sendMCPError (id : Option String) (message : Option String) (data : Option JVal) : SSEFrame :=
  { jsonrpc := "2.0", id := some id,
    error := some { code := -32603, message := message.getD "Internal error", data := data } }

/-- JSON serialization of a tool entry list as `{tools: [...]}`. -/
def toolsParams (tools : List ToolDescriptor) : JVal :=
  .obj [("tools", .arr (tools.map ToolDescriptor.toJVal))]

/-! ### simple_mcp_server.js -/

/-- Body of `GET /health` in `simple_mcp_server.js` (lines 71-80): note it
reports the tool count, and no client count (the simple server keeps no
connection registry at all). -/
def simpleHealthBody (now : String) : JVal :=
  .obj [("status", .s "healthy"),
        ("timestamp", .s now),
        ("service", .s "simple-mcp-server"),
        ("tools", .n PLAYWRIGHT_TOOLS.length)]

/-- An HTTP JSON response: status code plus serialized body. -/
structure HttpResponse where
  status : Nat
  body : JVal

/-- `GET /tools` in `simple_mcp_server.js` (lines 82-88): serves the static
catalog as `{tools: PLAYWRIGHT_TOOLS}`. -/
def toolsHandler : HttpResponse :=
  { status := 200, body := .obj [("tools", .arr (PLAYWRIGHT_TOOLS.map ToolDescriptor.toJVal))] }

/-- The parsed body of a `POST /execute` request, `{tool, params}`.  The
`params` value is only ever re-serialized (`JSON.stringify(request.params)`),
so it is carried opaquely as its serialized text. -/
structure ExecuteRequest where
  tool : String
  params : String

/-- The `POST /execute` handler of `simple_mcp_server.js` (lines 208-239),
modelled from the point where the accumulated body has been given to
`JSON.parse`: on success it fabricates a simulated success result for the
named tool, consulting neither the catalog nor any automation engine; on a
parse failure it answers 400 with an error body. -/
def executeHandler (parsed : Except String ExecuteRequest) (now : String) : HttpResponse :=
  match parsed with
  | .ok request =>
      { status := 200,
        body := .obj [("tool", .s request.tool),
                      ("status", .s "success"),
                      ("result", .s ("Executed " ++ request.tool ++ " with params: " ++ request.params)),
                      ("timestamp", .s now)] }
  | .error msg =>
      { status := 400,
        body := .obj [("error", .s "잘못된 요청"), ("details", .s msg)] }

/-- The three frames written, in order, by the simple server's `/mcp`
handler before the heartbeat interval is installed (lines 135-164):
`notifications/initialized`, then `server/info`, then `tools/list`. -/
def simpleMcpSetupFrames : List SSEFrame :=
  [ sendMCPNotification "notifications/initialized" (.obj []),
    sendMCPNotification "server/info"
      (.obj [("name", .s "simple-playwright-mcp"),
             ("version", .s "1.0.0"),
             ("capabilities", .arr [.s "tools"]),
             ("tools", .arr (PLAYWRIGHT_TOOLS.map ToolDescriptor.toJVal))]),
    sendMCPNotification "tools/list" (toolsParams PLAYWRIGHT_TOOLS) ]

/-- The heartbeat frame written every 30 seconds by the simple server's
`/mcp` handler (lines 169-181). -/
def heartbeatFrame (now : String) : SSEFrame :=
  sendMCPNotification "heartbeat" (.obj [("timestamp", .s now)])

/-- The heartbeat period, `30000` ms (line 181). -/
def heartbeatIntervalMs : Nat := 30000

/-- State of one simple-server `/mcp` connection: whether the transport has
been closed, whether the heartbeat interval is still scheduled, and the
frames written so far (in write order — the channel delivers them FIFO). -/
structure SimpleConn where
  closed : Bool
  heartbeatActive : Bool
  written : List SSEFrame

/-- One firing of the simple server's heartbeat interval (lines 169-181):
if the interval is still scheduled, it tries to write a heartbeat frame;
on a write error it only runs `clearInterval(heartbeatInterval)` — it does
not end the response, destroy the request, or otherwise tear the
connection down. -/
def heartbeatTick (now : String) (writeOk : Bool) (c : SimpleConn) : SimpleConn :=
  if c.heartbeatActive = false then c
  else if writeOk then { c with written := c.written ++ [heartbeatFrame now] }
  else { c with heartbeatActive := false }

/-! ### playwright_mcp_server.js -/

/-- The error thrown by `createMCPServer()` when the Playwright connection
cannot be created: its `message` and `stack`, as used by the catch block. -/
structure FactoryErr where
  message : String
  stack : String
  deriving DecidableEq, Repr

/-- Oracle for the outcomes of the external calls awaited inside the full
server's `/mcp` handler:
`factory` is the outcome of `await createMCPServer()` (a successfully
created Playwright connection is an opaque handle, numbered);
`sdkAvailable` is the condition `SSEServerTransport && mcpServer.server`;
`sdkConnectOk` is whether `mcpServer.server.connect(transport)` succeeded;
`toolHandlers` is the outcome of reading `mcpServer.server._toolHandlers`
(the keys of that map, or the thrown message). -/
structure McpEnv where
  factory : Except FactoryErr Nat
  sdkAvailable : Bool
  sdkConnectOk : Bool
  toolHandlers : Except String (List String)

/-- One entry of the `connectedClients` map (lines 152-157): the `res`
transport handle is represented by the connection's frame trace and is not
stored; `mcpServer` is the numbered session handle. -/
structure ClientEntry where
  mcpServer : Nat
  connected : Bool
  timestamp : String
  deriving DecidableEq, Repr

/-- Module state of the full server: the `connectedClients` JS `Map`,
modelled as an insertion-ordered association list. -/
structure PwState where
  connectedClients : List (String × ClientEntry)
  deriving DecidableEq, Repr

/-- `Map.prototype.get`-style lookup in the registry. -/
def regLookup : List (String × ClientEntry) → String → Option ClientEntry
  | [], _ => none
  | (k', v) :: t, k => if k' = k then some v else regLookup t k

/-- `Map.prototype.set`: replaces in place when the key is present,
appends otherwise. -/
def regSet : List (String × ClientEntry) → String → ClientEntry → List (String × ClientEntry)
  | [], k, v => [(k, v)]
  | (k', v') :: t, k, v => if k' = k then (k, v) :: t else (k', v') :: regSet t k v

/-- `Map.prototype.delete`: removes the entry for the key, if any. -/
def regDelete : List (String × ClientEntry) → String → List (String × ClientEntry)
  | [], _ => []
  | (k', v) :: t, k => if k' = k then regDelete t k else (k', v) :: regDelete t k

/-- The full server's `/mcp` handler (`playwright_mcp_server.js` lines
131-224), from the point where the SSE headers have been written (the first
statement of the `try` block), returning the frames it writes and the
updated registry.
On factory failure the catch block runs with `headersSent` true: a single
`sendMCPError` frame with `id: null` is written, and the cleanup delete
runs (the client was never registered).  On success the client is
registered, `notifications/initialized` is sent, and then: nothing more if
the standard SDK connect succeeds (the transport takes over); a `tools/list`
built from `_toolHandlers` names if the connect fails; an empty `tools/list`
if the SDK is not loaded or reading `_toolHandlers` throws. -/
def mcpHandlerPW (clientId now : String) (env : McpEnv) (st : PwState) :
    List SSEFrame × PwState :=
  match env.factory with
  | .error err =>
      ([sendMCPError none (some err.message) (some (.obj [("stack", .s err.stack)]))],
       { st with connectedClients := regDelete st.connectedClients clientId })
  | .ok session =>
      let entry : ClientEntry := { mcpServer := session, connected := true, timestamp := now }
      let st' : PwState := { st with connectedClients := regSet st.connectedClients clientId entry }
      let initFrame := sendMCPNotification "notifications/initialized" (.obj [])
      let rest : List SSEFrame :=
        if env.sdkAvailable then
          if env.sdkConnectOk then []
          else
            match env.toolHandlers with
            | .ok names =>
                [sendMCPNotification "tools/list"
                  (.obj [("tools", .arr (names.map (fun nm =>
                    .obj [("name", .s nm),
                          ("description", .s ("Playwright tool: " ++ nm))])))])]
            | .error _ =>
                [sendMCPNotification "tools/list" (.obj [("tools", .arr [])])]
        else [sendMCPNotification "tools/list" (.obj [("tools", .arr [])])]
      (initFrame :: rest, st')

/-- The `req.on('close')` callback (lines 193-196): the registry entry is
deleted when the transport reports closure. -/
def pwOnClose (clientId : String) (st : PwState) : PwState :=
  { st with connectedClients := regDelete st.connectedClients clientId }

/-- Body of `GET /health` in `playwright_mcp_server.js` (lines 120-129):
status, timestamp, service name and `connectedClients.size`. -/
def pwHealthBody (now : String) (st : PwState) : JVal :=
  .obj [("status", .s "healthy"),
        ("timestamp", .s now),
        ("service", .s "playwright-mcp-server"),
        ("clients", .n st.connectedClients.length)]

/-- Startup configuration read once from the environment (lines 36-45). -/
structure PwCfg where
  headless : Bool := true
  channel : String := "chrome"

/-- The `playwrightConfig` object (lines 36-45) as serialized in `/info`. -/
def playwrightConfigJ (cfg : PwCfg) : JVal :=
  .obj [("browser", .obj [("launchOptions",
           .obj [("headless", .b cfg.headless), ("channel", .s cfg.channel)])]),
        ("capabilities", .arr [.s "tabs", .s "pdf", .s "vision"]),
        ("outputDir", .s "./playwright-outputs")]

/-- Body of `GET /` and `GET /info` (lines 227-244). -/
def pwInfoBody (cfg : PwCfg) (uptime : Nat) (st : PwState) : JVal :=
  .obj [("name", .s "Enhanced Playwright MCP HTTP Server"),
        ("version", .s "2.0.0"),
        ("endpoints", .obj [("health", .s "/health"), ("mcp", .s "/mcp"), ("info", .s "/info")]),
        ("config", playwrightConfigJ cfg),
        ("stats", .obj [("connectedClients", .n st.connectedClients.length),
                        ("uptime", .n uptime)])]

/-- One inbound HTTP request to the full server, after URL dispatch. -/
inductive PwReq where
  | options
  | health
  | mcp (clientId : String) (env : McpEnv)
  | info
  | notFound (url : String)

/-- What one request handler produces on the wire. -/
inductive PwOutput where
  | json (resp : HttpResponse)
  | sse (frames : List SSEFrame)
  | empty (status : Nat)

/-- The full server's request dispatcher (`http.createServer` callback,
lines 108-249): the `/mcp` branch is the only one that touches the
`connectedClients` registry. -/
def pwStep (cfg : PwCfg) (uptime : Nat) (now : String) (req : PwReq) (st : PwState) :
    PwOutput × PwState :=
  match req with
  | .options => (.empty 200, st)
  | .health => (.json { status := 200, body := pwHealthBody now st }, st)
  | .mcp clientId env =>
      let out := mcpHandlerPW clientId now env st
      (.sse out.1, out.2)
  | .info => (.json { status := 200, body := pwInfoBody cfg uptime st }, st)
  | .notFound _ => (.json { status := 404, body := .obj [("error", .s "Not found")] }, st)

/-! ### Trace checkers and concrete fixtures -/

/-- Scan of a frame trace: `seen` records whether a
`notifications/initialized` frame has already occurred; returns `false` as
soon as a `tools/list` frame occurs with no earlier `initialized`. -/
def initSeenBefore : Bool → List SSEFrame → Bool
  | _, [] => true
  | seen, f :: rest =>
      if f.method == some "tools/list" && !seen then false
      else initSeenBefore (seen || f.method == some "notifications/initialized") rest

/-- Every `tools/list` frame of the trace is preceded by an earlier
`notifications/initialized` frame. -/
def initBeforeToolsList (fs : List SSEFrame) : Bool :=
  initSeenBefore false fs

/-- A frame that carries an `id` field (i.e. is a `Response` frame) carries
exactly one of `result` and `error`; frames without an `id` are exempt. -/
def respFieldsOkB (f : SSEFrame) : Bool :=
  !f.id.isSome || ((f.result.isSome && f.error.isNone) || (f.result.isNone && f.error.isSome))

/-- Oracle for an `/mcp` connection whose Playwright factory throws. -/
def envFail : McpEnv :=
  { factory := .error { message := "boom", stack := "trace" },
    sdkAvailable := true, sdkConnectOk := true, toolHandlers := .ok [] }

/-- Oracle for an `/mcp` connection whose factory succeeds (session 7) but
whose standard SDK connect fails, so the fallback `tools/list` is sent. -/
def envOk : McpEnv :=
  { factory := .ok 7,
    sdkAvailable := true, sdkConnectOk := false, toolHandlers := .ok ["browser_navigate"] }

/-- An empty registry. -/
def st0 : PwState := { connectedClients := [] }

/-- A live simple-server connection with its heartbeat interval scheduled. -/
def hbConn0 : SimpleConn := { closed := false, heartbeatActive := true, written := [] }

/-! ### Registry lemmas -/

theorem regLookup_regSet_self (m : List (String × ClientEntry)) (k : String) (v : ClientEntry) :
    regLookup (regSet m k v) k = some v := by
  induction m with
  | nil => simp [regSet, regLookup]
  | cons p t ih =>
      by_cases h : p.1 = k
      · simp [regSet, regLookup, h]
      · simp [regSet, regLookup, h, ih]

theorem regLookup_regDelete_self (m : List (String × ClientEntry)) (k : String) :
    regLookup (regDelete m k) k = none := by
  induction m with
  | nil => simp [regDelete, regLookup]
  | cons p t ih =>
      by_cases h : p.1 = k
      · simp [regDelete, h, ih]
      · simp [regDelete, regLookup, h, ih]

theorem regDelete_of_lookup_none (m : List (String × ClientEntry)) (k : String)
    (h : regLookup m k = none) : regDelete m k = m := by
  induction m with
  | nil => simp [regDelete]
  | cons p t ih =>
      by_cases hk : p.1 = k
      · simp [regLookup, hk] at h
      · simp [regLookup, hk] at h
        simp [regDelete, hk, ih h]

/-! ### Claim theorems -/

/-- C3: every `POST /execute` body that parses as JSON gets a single 200
result whose `status` is `success` and whose `tool` names the requested
tool; the body's keys are fixed (`tool`, `status`, `result`, `timestamp` —
no flag marking the result as simulated), the same even for a tool that is
not in the catalog (witnessed by `ghost_tool`, and by the handler never
consulting `PLAYWRIGHT_TOOLS` or any automation session); a body that fails
to parse yields a 400 response with an error body. -/
theorem execute_simulates_success_for_any_tool (r : ExecuteRequest) (msg now : String) :
    (executeHandler (.ok r) now).status = 200 ∧
    (executeHandler (.ok r) now).body.lookup "status" = some (.s "success") ∧
    (executeHandler (.ok r) now).body.lookup "tool" = some (.s r.tool) ∧
    (executeHandler (.ok r) now).body.keys = ["tool", "status", "result", "timestamp"] ∧
    "simulated" ∉ (executeHandler (.ok r) now).body.keys ∧
    "ghost_tool" ∉ PLAYWRIGHT_TOOLS.map ToolDescriptor.name ∧
    (executeHandler (.ok { tool := "ghost_tool", params := "" }) now).status = 200 ∧
    (executeHandler (.error msg) now).status = 400 ∧
    (executeHandler (.error msg) now).body.keys = ["error", "details"] := by
  refine ⟨rfl, rfl, rfl, rfl, ?_, by decide, rfl, rfl, rfl⟩
  intro hmem
  simp [executeHandler, JVal.keys] at hmem

/-- C6 counterexample: the simple server's `GET /health` body
(`simple_mcp_server.js` lines 71-80) carries no `clients` field at all —
its fourth field is the tool-catalog size — so `/health` does not always
return the count of currently connected clients. -/
theorem simple_health_lacks_client_count :
    "clients" ∉ (simpleHealthBody "2026-02-03T04:05:06Z").keys ∧
    (simpleHealthBody "2026-02-03T04:05:06Z").keys = ["status", "timestamp", "service", "tools"] ∧
    (simpleHealthBody "2026-02-03T04:05:06Z").lookup "tools" = some (.n 4) := by
  refine ⟨?_, rfl, rfl⟩
  intro hmem
  simp [simpleHealthBody, JVal.keys] at hmem

/-- C6 amended: the full server's `GET /health` returns the liveness
status, the timestamp and the connected-client count
(`connectedClients.size`); the simple server's `GET /health` returns the
liveness status, the timestamp and the tool-catalog size — it reports no
client count (it keeps no connection registry). -/
theorem health_bodies_contents (now : String) (st : PwState) :
    (pwHealthBody now st).lookup "status" = some (.s "healthy") ∧
    (pwHealthBody now st).lookup "timestamp" = some (.s now) ∧
    (pwHealthBody now st).lookup "clients" = some (.n st.connectedClients.length) ∧
    (simpleHealthBody now).lookup "status" = some (.s "healthy") ∧
    (simpleHealthBody now).lookup "timestamp" = some (.s now) ∧
    (simpleHealthBody now).lookup "tools" = some (.n PLAYWRIGHT_TOOLS.length) ∧
    "clients" ∉ (simpleHealthBody now).keys := by
  refine ⟨rfl, rfl, rfl, rfl, rfl, rfl, ?_⟩
  intro hmem
  simp [simpleHealthBody, JVal.keys] at hmem

/-- C8: within the catalog snapshot the tool names are pairwise distinct,
and `GET /tools` serves the descriptors exactly as declared at startup, in
declaration order (`browser_navigate`, `page_screenshot`, `element_click`,
`page_content`).  The catalog is a module-level `const` that no handler
mutates, so it is unchanged for the whole process lifetime — in the
embedding it is the constant `PLAYWRIGHT_TOOLS`, which `toolsHandler`
serializes directly. -/
theorem catalog_names_unique_and_order_stable :
    (PLAYWRIGHT_TOOLS.map ToolDescriptor.name).Nodup ∧
    toolsHandler.status = 200 ∧
    toolsHandler.body.lookup "tools" = some (.arr (PLAYWRIGHT_TOOLS.map ToolDescriptor.toJVal)) ∧
    PLAYWRIGHT_TOOLS.map ToolDescriptor.name =
      ["browser_navigate", "page_screenshot", "element_click", "page_content"] := by
  refine ⟨by decide, rfl, rfl, by decide⟩

/-- C9: serving `GET /health` or `GET /info` leaves the full server's state
(the connection registry, hence also every stored automation-session
handle) unchanged; the tool catalog is a constant that no handler can
mutate, and the simple server keeps no mutable state at all. -/
theorem health_info_preserve_state (cfg : PwCfg) (uptime : Nat) (now : String) (st : PwState) :
    (pwStep cfg uptime now .health st).2 = st ∧
    (pwStep cfg uptime now .info st).2 = st := by
  exact ⟨rfl, rfl⟩

/-- C2 counterexample: when the Automation Session Factory
(`createMCPServer`) fails during negotiation on the full server, the only
frame written has no `method` field (it is the `sendMCPError` frame with
`id: null`), so the client receives neither `notifications/initialized` nor
`tools/list`; the client is never registered, and the subsequent `/health`
count is 0 — the connection is not "counted as active". -/
theorem factory_failure_no_degraded_active :
    (mcpHandlerPW "client-1" "t0" envFail st0).1.map SSEFrame.method = [none] ∧
    (mcpHandlerPW "client-1" "t0" envFail st0).2.connectedClients = [] ∧
    (pwHealthBody "t1" (mcpHandlerPW "client-1" "t0" envFail st0).2).lookup "clients" =
      some (.n 0) := by
  exact ⟨rfl, rfl, rfl⟩

/-- C2 amended: if the Automation Session Factory fails during negotiation,
the full server's connection does not become Active in degraded mode: the
handler writes exactly one JSON-RPC error frame (code -32603, `id: null`,
no `method`) on the already-open channel, sends no `initialized` or
`tools/list` notification, and leaves the registry unchanged (the client is
never registered), so `/health` does not count the connection. -/
theorem factory_failure_aborts_negotiation (clientId now msg stack : String) (env : McpEnv)
    (st : PwState)
    (hf : env.factory = .error { message := msg, stack := stack })
    (hfresh : regLookup st.connectedClients clientId = none) :
    (mcpHandlerPW clientId now env st).1 =
      [sendMCPError none (some msg) (some (.obj [("stack", .s stack)]))] ∧
    (∀ f ∈ (mcpHandlerPW clientId now env st).1, f.method = none) ∧
    (mcpHandlerPW clientId now env st).2 = st := by
  have hdel : regDelete st.connectedClients clientId = st.connectedClients :=
    regDelete_of_lookup_none _ _ hfresh
  unfold mcpHandlerPW
  rw [hf]
  refine ⟨rfl, ?_, ?_⟩
  · intro f hfm
    rw [List.mem_singleton] at hfm
    subst hfm
    rfl
  · show ({ st with connectedClients := regDelete st.connectedClients clientId } : PwState) = st
    rw [hdel]

/-- Witness for `factory_failure_aborts_negotiation` at a concrete failing
factory and an empty registry. -/
theorem factory_failure_aborts_negotiation_witness :
    (mcpHandlerPW "client-1" "t0" envFail st0).1 =
      [sendMCPError none (some "boom") (some (.obj [("stack", .s "trace")]))] :=
  (factory_failure_aborts_negotiation "client-1" "t0" "boom" "trace" envFail st0 rfl rfl).1

/-- C4: on every branch of the full server's `/mcp` handler, and in the
simple server's `/mcp` setup sequence, every `tools/list` frame is preceded
by an earlier `notifications/initialized` frame; the simple server's setup
writes, in order, `notifications/initialized`, `server/info`, `tools/list`.
In the embedding a connection's channel is the write-ordered frame list, so
frames are delivered FIFO per connection by construction. -/
theorem initialized_precedes_tools_list (clientId now : String) (env : McpEnv) (st : PwState) :
    initBeforeToolsList (mcpHandlerPW clientId now env st).1 = true ∧
    initBeforeToolsList simpleMcpSetupFrames = true ∧
    simpleMcpSetupFrames.map SSEFrame.method =
      [some "notifications/initialized", some "server/info", some "tools/list"] := by
  refine ⟨?_, rfl, rfl⟩
  obtain ⟨fac, sdkA, sdkOk, th⟩ := env
  cases fac with
  | error e => rfl
  | ok session => cases sdkA <;> cases sdkOk <;> cases th <;> rfl

/-- C5 counterexample: a heartbeat write failure on a live simple-server
connection only clears the heartbeat interval — the connection is not
closed and nothing else is torn down, contradicting the claim that a
heartbeat write failure immediately forces the transition to Draining. -/
theorem heartbeat_failure_only_stops_timer :
    (heartbeatTick "2026-02-03T04:05:06Z" false hbConn0).closed = false ∧
    (heartbeatTick "2026-02-03T04:05:06Z" false hbConn0).heartbeatActive = false ∧
    (heartbeatTick "2026-02-03T04:05:06Z" false hbConn0).written = [] := by
  exact ⟨rfl, rfl, rfl⟩

/-- C5 amended: the simple server emits a heartbeat notification through a
per-connection interval of 30000 ms while the timer is scheduled; a
successful tick appends exactly one heartbeat frame, and a failed write
only stops that connection's heartbeat timer (`clearInterval`) — the
connection state is otherwise unchanged, with no transition to Draining.
The full server's `/mcp` handler writes no heartbeat frame at all. -/
theorem heartbeat_tick_behavior (c : SimpleConn) (now clientId : String) (env : McpEnv)
    (st : PwState) (h : c.heartbeatActive = true) :
    heartbeatTick now true c = { c with written := c.written ++ [heartbeatFrame now] } ∧
    heartbeatTick now false c = { c with heartbeatActive := false } ∧
    heartbeatIntervalMs = 30000 ∧
    ((mcpHandlerPW clientId now env st).1.all (fun f => f.method != some "heartbeat")) = true := by
  refine ⟨?_, ?_, rfl, ?_⟩
  · simp [heartbeatTick, h]
  · simp [heartbeatTick, h]
  · obtain ⟨fac, sdkA, sdkOk, th⟩ := env
    cases fac with
    | error e => rfl
    | ok session => cases sdkA <;> cases sdkOk <;> cases th <;> rfl

/-- Witness for `heartbeat_tick_behavior` at a concrete live connection. -/
theorem heartbeat_tick_behavior_witness :
    heartbeatTick "t" false hbConn0 = { hbConn0 with heartbeatActive := false } :=
  (heartbeat_tick_behavior hbConn0 "t" "client-3" envOk st0 rfl).2.1

/-- C7: every frame the repository code writes that carries an `id` field
(a `Response` frame) carries exactly one of `result` and `error`: this
holds for every frame of every branch of the full server's `/mcp` handler,
for the simple server's setup frames and heartbeat (which carry no `id`),
and for the two response constructors themselves — `sendMCPResponse`
always sets `result` and never `error`, `sendMCPError` always sets `error`
and never `result`. -/
theorem responses_have_exactly_one_of_result_error (clientId now : String) (env : McpEnv)
    (st : PwState) (id : Option String) (r : JVal) (m : Option String) (d : Option JVal) :
    ((mcpHandlerPW clientId now env st).1.all respFieldsOkB) = true ∧
    (simpleMcpSetupFrames.all respFieldsOkB) = true ∧
    respFieldsOkB (heartbeatFrame now) = true ∧
    (sendMCPResponse id r).result.isSome = true ∧ (sendMCPResponse id r).error = none ∧
    (sendMCPError id m d).result = none ∧ (sendMCPError id m d).error.isSome = true := by
  refine ⟨?_, rfl, rfl, rfl, rfl, rfl, rfl⟩
  obtain ⟨fac, sdkA, sdkOk, th⟩ := env
  cases fac with
  | error e => rfl
  | ok session => cases sdkA <;> cases sdkOk <;> cases th <;> rfl

/-- C10: on the full server a client id is registered only after
`createMCPServer()` has succeeded: if the factory fails, the registry (and
hence the `/health` client count) is exactly as before the connection
attempt; if it succeeds, the registry maps the client id to an entry
holding the created session; and after the transport's `close` event the
entry is gone. -/
theorem registry_entries_require_session (clientId now : String) (env : McpEnv) (st : PwState)
    (hfresh : regLookup st.connectedClients clientId = none) :
    (∀ err, env.factory = .error err → (mcpHandlerPW clientId now env st).2 = st) ∧
    (∀ session, env.factory = .ok session →
       regLookup (mcpHandlerPW clientId now env st).2.connectedClients clientId =
         some { mcpServer := session, connected := true, timestamp := now }) ∧
    (∀ err, env.factory = .error err →
       pwHealthBody now (mcpHandlerPW clientId now env st).2 = pwHealthBody now st) ∧
    regLookup (pwOnClose clientId (mcpHandlerPW clientId now env st).2).connectedClients
      clientId = none := by
  have hdel : regDelete st.connectedClients clientId = st.connectedClients :=
    regDelete_of_lookup_none _ _ hfresh
  have h1 : ∀ err, env.factory = .error err → (mcpHandlerPW clientId now env st).2 = st := by
    intro err hf
    unfold mcpHandlerPW
    rw [hf]
    show ({ st with connectedClients := regDelete st.connectedClients clientId } : PwState) = st
    rw [hdel]
  refine ⟨h1, ?_, ?_, ?_⟩
  · intro session hf
    unfold mcpHandlerPW
    rw [hf]
    exact regLookup_regSet_self _ _ _
  · intro err hf
    rw [h1 err hf]
  · exact regLookup_regDelete_self _ _

/-- Witness for `registry_entries_require_session` at a concrete successful
factory outcome (session 7) and an empty registry. -/
theorem registry_entries_require_session_witness :
    regLookup (mcpHandlerPW "client-2" "t0" envOk st0).2.connectedClients "client-2" =
      some { mcpServer := 7, connected := true, timestamp := "t0" } :=
  (registry_entries_require_session "client-2" "t0" envOk st0 rfl).2.1 7 rfl

end LQRadar
